import Mathlib

/-!
Shallow embedding of the piggy-bank protocol: the `esdt-minter` Issuer
contract (multiversx-sc era, `integration_tests/piggy_bank/contracts/esdt-minter/src/lib.rs`),
its earlier elrond-wasm era variant (`integration_tests/contracts/esdt-minter/src/lib.rs`),
and the `piggy-bank` Vault contract (`integration_tests/contracts/piggy-bank/src/lib.rs`).

Modelling conventions:
- Addresses (`ManagedAddress`) and token identifiers (`TokenIdentifier`) are
  opaque comparable values, modelled as `Nat`.
- `BigUint` amounts are arbitrary-precision non-negative integers on chain,
  modelled as `Nat`; addition and multiplication cannot overflow, and division
  by `100` is floor division, exactly as for `BigUint`.
- Per-address `SingleValueMapper` storage (absent entry reads as zero) is a
  total function `Nat → Nat`; `WhitelistMapper` membership is `Nat → Bool`.
- A `require!` failure aborts the whole invocation: an endpoint is a function
  into `Except String _` carrying the `require!` message, and the host
  execution environment's transactional semantics (every mutation of an
  aborted invocation is rolled back, in every contract touched) is made
  explicit by the `exec*` wrappers, which return the pre-state on `.error`.
- Outbound `direct_esdt` / `mint_and_send` transfers are logged as `Transfer`
  values; `mint` is tracked by the `minted` counter of the Issuer state
  (token supply is not contract storage, but it is contract-visible state).
-/

namespace PiggyProtocol

/-- Single ESDT payment (`EsdtTokenPayment` in multiversx-sc): token
identifier, token nonce and amount.  The fungible piggy token always travels
with nonce `0`. -/
structure EsdtTokenPayment where
  token_identifier : Nat
  token_nonce : Nat
  amount : Nat
deriving DecidableEq

/-- One outbound ESDT transfer performed through the send API
(`direct_esdt` or `mint_and_send`): sending contract, recipient, token,
nonce and amount. -/
structure Transfer where
  sender : Nat
  recipient : Nat
  token_identifier : Nat
  token_nonce : Nat
  amount : Nat
deriving DecidableEq

/-- Pointwise update of a per-address ledger; `clear` is `setEntry f k 0`. -/
def setEntry (f : Nat → Nat) (k v : Nat) : Nat → Nat :=
  fun q => if q = k then v else f q

/-- Pointwise update of a whitelist membership flag; `add` sets it to `true`,
`remove` sets it to `false`. -/
def setFlag (f : Nat → Bool) (k : Nat) (v : Bool) : Nat → Bool :=
  fun q => if q = k then v else f q

/-- Storage of the multiversx-sc era `EsdtMinter` contract
(`piggy_bank/contracts/esdt-minter/src/lib.rs`), plus the running total of
token units minted so far (`mint` / `mint_and_send` increase it). -/
structure EsdtMinterState where
  esdt_identifier : Nat
  airdrop_amount : Nat → Nat
  interest_percentage : Nat
  interest_whitelist : Nat → Bool
  minted : Nat

/-- Storage of the elrond-wasm era `EsdtMinter` contract
(`contracts/esdt-minter/src/lib.rs`): no interest machinery, no whitelist. -/
structure EsdtMinterV1State where
  esdt_identifier : Nat
  airdrop_amount : Nat → Nat
  minted : Nat

/-- Storage of the `PiggyBank` contract (`contracts/piggy-bank/src/lib.rs`). -/
structure PiggyBankState where
  piggy_token_identifier : Nat
  esdt_minter_address : Nat
  address_amount : Nat → Nat

/-- The two deployed contracts of one protocol instance; the bank's
`esdt_minter_address` storage points at `minter`. -/
structure World where
  minter : EsdtMinterState
  bank : PiggyBankState

namespace EsdtMinter

/-- Source: `self.interest_whitelist().require_whitelisted(&caller)` — the
`WhitelistMapper` aborts with message `Item not whitelisted` when the flag of
`address` is unset. -/
def require_whitelisted (st : EsdtMinterState) (address : Nat) :
    Except String Unit :=
  if st.interest_whitelist address then .ok () else .error ("Item not whitelisted")

/-- Source: `require_good_token_identifier` of the esdt-minter — aborts unless
the payment's token identifier equals the pinned `esdt_identifier`. -/
def require_good_token_identifier (st : EsdtMinterState)
    (payment : EsdtTokenPayment) : Except String Unit :=
  if payment.token_identifier = st.esdt_identifier then .ok ()
  else .error ("Token identifier do not match the esdt token")

/-- Source: `claim_airdrop` endpoint (multiversx-sc era).  Reads the caller's
airdrop balance, aborts with `Nothing to claim` when it is zero, otherwise
mints that amount and sends it to the caller (`mint_and_send`), then clears
the caller's entry.  `self` is the contract's own address (the sender of the
outbound transfer). -/
def claim_airdrop (self : Nat) (st : EsdtMinterState) (caller : Nat) :
    Except String (EsdtMinterState × List Transfer) :=
  let claimable_amount := st.airdrop_amount caller
  if claimable_amount = 0 then .error ("Nothing to claim")
  else
    .ok ({ st with
            airdrop_amount := setEntry st.airdrop_amount caller 0,
            minted := st.minted + claimable_amount },
         [⟨self, caller, st.esdt_identifier, 0, claimable_amount⟩])

/-- Source: `claim_interests` endpoint.  Checks the caller against the
interest whitelist, checks the attached payment's token identifier, computes
`interest_amount = capital * interest_percentage / 100` (floor division on
arbitrary-precision integers), mints the interest into its own custody, sends
capital plus interest back to the caller with `direct_esdt`, and returns the
same payment as the endpoint's result value. -/
def claim_interests (self : Nat) (st : EsdtMinterState) (caller : Nat)
    (capital_payment : EsdtTokenPayment) :
    Except String (EsdtMinterState × List Transfer × EsdtTokenPayment) :=
  match require_whitelisted st caller with
  | .error e => .error e
  | .ok _ =>
    match require_good_token_identifier st capital_payment with
    | .error e => .error e
    | .ok _ =>
      let interest_amount :=
        capital_payment.amount * st.interest_percentage / 100
      let payment_with_interests : EsdtTokenPayment :=
        ⟨capital_payment.token_identifier, 0,
         capital_payment.amount + interest_amount⟩
      .ok ({ st with minted := st.minted + interest_amount },
           [⟨self, caller, payment_with_interests.token_identifier, 0,
             payment_with_interests.amount⟩],
           payment_with_interests)

/-- Source: `add_interest_address` endpoint, `#[only_owner]` — aborts with the
framework's owner-check message for any non-owner caller, otherwise sets the
whitelist flag of `address`. -/
def add_interest_address (st : EsdtMinterState) (caller owner address : Nat) :
    Except String EsdtMinterState :=
  if caller = owner then
    .ok { st with interest_whitelist := setFlag st.interest_whitelist address true }
  else .error ("Endpoint can only be called by owner")

/-- Source: `remove_interest_address` endpoint, `#[only_owner]` — clears the
whitelist flag of `address`. -/
def remove_interest_address (st : EsdtMinterState) (caller owner address : Nat) :
    Except String EsdtMinterState :=
  if caller = owner then
    .ok { st with interest_whitelist := setFlag st.interest_whitelist address false }
  else .error ("Endpoint can only be called by owner")

/-- Source: `add_airdrop_amount` endpoint, `#[only_owner]` — credits the
airdrop balance of `address` by `amount` (`update(|val| *val += amount)`). -/
def add_airdrop_amount (st : EsdtMinterState) (caller owner address amount : Nat) :
    Except String EsdtMinterState :=
  if caller = owner then
    .ok { st with
          airdrop_amount := setEntry st.airdrop_amount address
                              (st.airdrop_amount address + amount) }
  else .error ("Endpoint can only be called by owner")

end EsdtMinter

namespace EsdtMinterV1

/-- Source: `claim_airdrop` endpoint of the elrond-wasm era esdt-minter
(`contracts/esdt-minter/src/lib.rs`).  Unlike the later version it performs
no zero check: it unconditionally mints the caller's current airdrop balance
(possibly zero) to the caller and clears the entry.  It has no failure path. -/
def claim_airdrop (self : Nat) (st : EsdtMinterV1State) (caller : Nat) :
    EsdtMinterV1State × List Transfer :=
  let claimable_amount := st.airdrop_amount caller
  ({ st with
      airdrop_amount := setEntry st.airdrop_amount caller 0,
      minted := st.minted + claimable_amount },
   [⟨self, caller, st.esdt_identifier, 0, claimable_amount⟩])

end EsdtMinterV1

namespace PiggyBank

/-- Source: `require_good_token_identifier` of the piggy-bank — aborts unless
the payment's token identifier equals the pinned `piggy_token_identifier`. -/
def require_good_token_identifier (st : PiggyBankState)
    (payment : EsdtTokenPayment) : Except String Unit :=
  if payment.token_identifier = st.piggy_token_identifier then .ok ()
  else .error ("Token identifier do not match the piggy token")

/-- Source: `deposit` endpoint.  Checks the attached payment's token
identifier against the pinned piggy token, then credits the caller's deposit
entry by the payment amount (`update(|val| *val += amount)`).  There is no
positivity requirement on the amount. -/
def deposit (st : PiggyBankState) (caller : Nat)
    (deposit_payment : EsdtTokenPayment) : Except String PiggyBankState :=
  match require_good_token_identifier st deposit_payment with
  | .error e => .error e
  | .ok _ =>
    .ok { st with
          address_amount := setEntry st.address_amount caller
                              (st.address_amount caller + deposit_payment.amount) }

/-- Source: `call_claim_interests_sync` — synchronous cross-contract call to
the esdt-minter's `claim_interests`, attaching `(piggy_token_identifier, 0,
amount)` as the payment.  Inside the callee, `get_caller()` is the bank's own
address `self`; the callee's own address is the bank's stored
`esdt_minter_address`. -/
def call_claim_interests_sync (w : World) (self : Nat) (amount : Nat) :
    Except String (EsdtMinterState × List Transfer × EsdtTokenPayment) :=
  EsdtMinter.claim_interests w.bank.esdt_minter_address w.minter self
    ⟨w.bank.piggy_token_identifier, 0, amount⟩

/-- Source: `withdraw` endpoint.  Reads the caller's deposit balance, aborts
with `Nothing to withdraw` when it is zero (`require!(amount > 0)`), performs
the synchronous `claim_interests` call with the full balance attached, sends
the returned principal-plus-interest payment to the caller with
`direct_esdt`, and only then clears the caller's deposit entry.  A callee
abort propagates: no mutation of either contract happens in that case.  The
returned transfer log contains the callee's transfers followed by the bank's
own outbound transfer. -/
def withdraw (w : World) (self caller : Nat) :
    Except String (World × List Transfer) :=
  let available_amount := w.bank.address_amount caller
  if available_amount = 0 then .error ("Nothing to withdraw")
  else
    match call_claim_interests_sync w self available_amount with
    | .error e => .error e
    | .ok (minterAfter, minterTransfers, payment_with_interests) =>
      .ok ({ minter := minterAfter,
             bank := { w.bank with
                       address_amount := setEntry w.bank.address_amount caller 0 } },
           minterTransfers ++
             [⟨self, caller, payment_with_interests.token_identifier,
               payment_with_interests.token_nonce,
               payment_with_interests.amount⟩])

end PiggyBank

/-- Top-level invocation of `deposit` under the host environment's
transactional semantics: an aborted invocation leaves the world exactly as it
was (spec §4.3 / §5, provided by the execution environment). -/
def execDeposit (w : World) (caller : Nat) (payment : EsdtTokenPayment) :
    World × Except String Unit :=
  match PiggyBank.deposit w.bank caller payment with
  | .error e => (w, .error e)
  | .ok b' => ({ w with bank := b' }, .ok ())

/-- Top-level invocation of `withdraw` under the host environment's
transactional semantics: if the invocation chain aborts anywhere (including
inside the synchronous `claim_interests` call), every mutation of both
contracts is rolled back and the world is returned unchanged. -/
def execWithdraw (w : World) (self caller : Nat) :
    World × Except String (List Transfer) :=
  match PiggyBank.withdraw w self caller with
  | .error e => (w, .error e)
  | .ok (w', ts) => (w', .ok ts)

/-- Extract the transfer log of a minter endpoint result, when it succeeded. -/
def airdropTransfers (r : Except String (EsdtMinterState × List Transfer)) :
    Option (List Transfer) :=
  match r with
  | .error _ => none
  | .ok (_, ts) => some ts

/-- Extract the transfer log of a `claim_interests` result, when it
succeeded. -/
def interestTransfers
    (r : Except String (EsdtMinterState × List Transfer × EsdtTokenPayment)) :
    Option (List Transfer) :=
  match r with
  | .error _ => none
  | .ok (_, ts, _) => some ts

/- Concrete protocol instances used by witnesses and counterexamples.
Address 9 is the deployed esdt-minter, address 10 the deployed piggy-bank
(whitelisted for interests, as in the integration test setup), address 4 the
owner, address 7 an ordinary user, and token identifier 1 the piggy token. -/

/-- Example minter: piggy token `1`, 100% interest, bank (address 10)
whitelisted, empty airdrop ledger. -/
def exMinter : EsdtMinterState :=
  { esdt_identifier := 1
    airdrop_amount := fun _ => 0
    interest_percentage := 100
    interest_whitelist := setFlag (fun _ => false) 10 true
    minted := 0 }

/-- Example minter with a 250% interest rate (rates above 100 are allowed). -/
def exMinter250 : EsdtMinterState :=
  { exMinter with interest_percentage := 250 }

/-- Example minter whose whitelist is empty (the bank is not whitelisted). -/
def exMinterNoWl : EsdtMinterState :=
  { exMinter with interest_whitelist := fun _ => false }

/-- Example elrond-era minter with an empty airdrop ledger. -/
def exMinterV1 : EsdtMinterV1State :=
  { esdt_identifier := 1
    airdrop_amount := fun _ => 0
    minted := 0 }

/-- Example bank: piggy token `1`, minter at address 9, user 7 holding a
deposit of 150000. -/
def exBank : PiggyBankState :=
  { piggy_token_identifier := 1
    esdt_minter_address := 9
    address_amount := setEntry (fun _ => 0) 7 150000 }

/-- Example bank with an empty deposit ledger. -/
def exBank0 : PiggyBankState :=
  { exBank with address_amount := fun _ => 0 }

/-- Example minter holding an airdrop allocation of 150000 for user 7. -/
def exMinterAir : EsdtMinterState :=
  { exMinter with airdrop_amount := setEntry (fun _ => 0) 7 150000 }

/-- Example world: whitelisted bank, 100% interest. -/
def exWorld : World :=
  { minter := exMinter, bank := exBank }

/-- Example world in which the bank is not whitelisted at the minter. -/
def exWorldNoWl : World :=
  { minter := exMinterNoWl, bank := exBank }

/-- Example world with an empty deposit ledger. -/
def exWorld0 : World :=
  { minter := exMinter, bank := exBank0 }

/-- The world reached from `w` by a successful `deposit` of `amount` units of
the piggy token by `caller` (statement abbreviation for the round-trip
properties). -/
def afterDeposit (w : World) (caller amount : Nat) : World :=
  { w with bank := { w.bank with
                     address_amount := setEntry w.bank.address_amount caller
                       (w.bank.address_amount caller + amount) } }

/-- Pointwise read lemmas for ledger updates. -/
theorem setEntry_self (f : Nat → Nat) (k v : Nat) : setEntry f k v k = v := by
  simp [setEntry]

theorem setEntry_other (f : Nat → Nat) (k v q : Nat) (h : q ≠ k) :
    setEntry f k v q = f q := by
  simp [setEntry, h]

theorem setFlag_self (f : Nat → Bool) (k : Nat) (v : Bool) :
    setFlag f k v k = v := by
  simp [setFlag]

/-! Shared characterization lemmas for the endpoints. -/

namespace EsdtMinter

/-- Success shape of `claim_interests`: whitelisted caller and matching token
identifier give the principal-plus-floor-interest payment, one outbound
transfer of it to the caller, and the interest minted into custody. -/
theorem claim_interests_ok_spec (self : Nat) (st : EsdtMinterState)
    (caller : Nat) (pay : EsdtTokenPayment)
    (hw : st.interest_whitelist caller = true)
    (ht : pay.token_identifier = st.esdt_identifier) :
    claim_interests self st caller pay =
      .ok ({ st with minted := st.minted + pay.amount * st.interest_percentage / 100 },
           [⟨self, caller, pay.token_identifier, 0,
             pay.amount + pay.amount * st.interest_percentage / 100⟩],
           ⟨pay.token_identifier, 0,
            pay.amount + pay.amount * st.interest_percentage / 100⟩) := by
  simp [claim_interests, require_whitelisted, require_good_token_identifier, hw, ht]

/-- Failure shape of `claim_interests` for a caller outside the whitelist. -/
theorem claim_interests_not_whitelisted_spec (self : Nat)
    (st : EsdtMinterState) (caller : Nat) (pay : EsdtTokenPayment)
    (hw : st.interest_whitelist caller = false) :
    claim_interests self st caller pay = .error ("Item not whitelisted") := by
  simp [claim_interests, require_whitelisted, hw]

/-- Failure shape of `claim_interests` for a wrong attached token. -/
theorem claim_interests_wrong_token_spec (self : Nat)
    (st : EsdtMinterState) (caller : Nat) (pay : EsdtTokenPayment)
    (hw : st.interest_whitelist caller = true)
    (ht : pay.token_identifier ≠ st.esdt_identifier) :
    claim_interests self st caller pay =
      .error ("Token identifier do not match the esdt token") := by
  simp [claim_interests, require_whitelisted, require_good_token_identifier, hw, ht]

end EsdtMinter

namespace PiggyBank

/-- Success shape of `deposit` for a payment in the piggy token. -/
theorem deposit_ok_spec (st : PiggyBankState) (caller : Nat)
    (pay : EsdtTokenPayment)
    (ht : pay.token_identifier = st.piggy_token_identifier) :
    deposit st caller pay =
      .ok { st with
            address_amount := setEntry st.address_amount caller
                                (st.address_amount caller + pay.amount) } := by
  simp [deposit, require_good_token_identifier, ht]

/-- Failure shape of `deposit` for a payment in a foreign token. -/
theorem deposit_wrong_token_spec (st : PiggyBankState) (caller : Nat)
    (pay : EsdtTokenPayment)
    (ht : pay.token_identifier ≠ st.piggy_token_identifier) :
    deposit st caller pay =
      .error ("Token identifier do not match the piggy token") := by
  simp [deposit, require_good_token_identifier, ht]

/-- Success shape of `withdraw`: with a non-zero deposit, a whitelisted bank
and matching pinned tokens in both contracts, the cross-call succeeds, the
caller's entry is cleared, and the log is the minter's transfer to the bank
followed by the bank's transfer of principal plus interest to the caller. -/
theorem withdraw_ok_spec (w : World) (self caller : Nat)
    (h0 : w.bank.address_amount caller ≠ 0)
    (hw : w.minter.interest_whitelist self = true)
    (ht : w.bank.piggy_token_identifier = w.minter.esdt_identifier) :
    withdraw w self caller =
      .ok ({ minter := { w.minter with
                         minted := w.minter.minted +
                           w.bank.address_amount caller *
                             w.minter.interest_percentage / 100 },
             bank := { w.bank with
                       address_amount := setEntry w.bank.address_amount caller 0 } },
           [⟨w.bank.esdt_minter_address, self, w.bank.piggy_token_identifier, 0,
             w.bank.address_amount caller +
               w.bank.address_amount caller * w.minter.interest_percentage / 100⟩,
            ⟨self, caller, w.bank.piggy_token_identifier, 0,
             w.bank.address_amount caller +
               w.bank.address_amount caller * w.minter.interest_percentage / 100⟩]) := by
  have hcall := EsdtMinter.claim_interests_ok_spec w.bank.esdt_minter_address
    w.minter self ⟨w.bank.piggy_token_identifier, 0, w.bank.address_amount caller⟩
    hw ht
  simp [withdraw, call_claim_interests_sync, h0, hcall]

/-- Failure shape of `withdraw` when the cross-call aborts. -/
theorem withdraw_abort_spec (w : World) (self caller : Nat) (e : String)
    (h0 : w.bank.address_amount caller ≠ 0)
    (habort : EsdtMinter.claim_interests w.bank.esdt_minter_address w.minter self
        ⟨w.bank.piggy_token_identifier, 0, w.bank.address_amount caller⟩ =
      .error e) :
    withdraw w self caller = .error e := by
  simp [withdraw, call_claim_interests_sync, h0, habort]

/-- Failure shape of `withdraw` with an empty deposit entry. -/
theorem withdraw_nothing_spec (w : World) (self caller : Nat)
    (h0 : w.bank.address_amount caller = 0) :
    withdraw w self caller = .error ("Nothing to withdraw") := by
  simp [withdraw, h0]

end PiggyBank

/-! Claim theorems. -/

/-- C1: for every principal `P` with `DepositLedger[P] = d > 0`, if the
synchronous `claim_interests` call made by `withdraw` (carrying the full
deposit `d` of the piggy token) aborts, then the entire `withdraw` invocation
aborts with that same failure and the world is unchanged: `DepositLedger[P]`
is still `d` and no state mutation of either service survives. -/
theorem withdraw_callee_abort_atomic (w : World) (self P d : Nat) (e : String)
    (hd : w.bank.address_amount P = d) (hpos : 0 < d)
    (habort : EsdtMinter.claim_interests w.bank.esdt_minter_address w.minter
        self ⟨w.bank.piggy_token_identifier, 0, d⟩ = .error e) :
    execWithdraw w self P = (w, .error e) ∧
    (execWithdraw w self P).1.bank.address_amount P = d := by
  have h0 : w.bank.address_amount P ≠ 0 := by omega
  have hw := PiggyBank.withdraw_abort_spec w self P e h0 (by rw [hd]; exact habort)
  refine ⟨by simp [execWithdraw, hw], ?_⟩
  simp [execWithdraw, hw, hd]

/-- C1 witness: bank not whitelisted, user 7 holds 150000; the withdraw
aborts with the whitelist failure and the deposit entry is untouched. -/
theorem withdraw_callee_abort_atomic_witness :
    execWithdraw exWorldNoWl 10 7 = (exWorldNoWl, .error ("Item not whitelisted")) ∧
    (execWithdraw exWorldNoWl 10 7).1.bank.address_amount 7 = 150000 :=
  withdraw_callee_abort_atomic exWorldNoWl 10 7 150000 ("Item not whitelisted")
    (by rfl) (by decide) (by rfl)

/-- C2: for every whitelisted caller and payment of amount `a` in the pinned
asset, and every configured rate `r`, `claim_interests` succeeds and produces
exactly one outbound payment of the pinned asset, of amount
`a + a * r / 100` with floor (round-down) natural division, both as the
single logged transfer and as the returned payment. -/
theorem claim_interests_floor_interest_payment (self : Nat)
    (st : EsdtMinterState) (caller : Nat) (pay : EsdtTokenPayment)
    (hw : st.interest_whitelist caller = true)
    (ht : pay.token_identifier = st.esdt_identifier) :
    EsdtMinter.claim_interests self st caller pay =
      .ok ({ st with minted := st.minted +
              pay.amount * st.interest_percentage / 100 },
           [⟨self, caller, st.esdt_identifier, 0,
             pay.amount + pay.amount * st.interest_percentage / 100⟩],
           ⟨st.esdt_identifier, 0,
            pay.amount + pay.amount * st.interest_percentage / 100⟩) := by
  rw [EsdtMinter.claim_interests_ok_spec self st caller pay hw ht, ht]

/-- C2 witness: whitelisted bank 10 claiming on 4 units at 100% receives one
payment of 8 units. -/
theorem claim_interests_floor_interest_payment_witness :
    EsdtMinter.claim_interests 9 exMinter 10 ⟨1, 0, 4⟩ =
      .ok ({ exMinter with minted := 4 }, [⟨9, 10, 1, 0, 8⟩], ⟨1, 0, 8⟩) :=
  claim_interests_floor_interest_payment 9 exMinter 10 ⟨1, 0, 4⟩
    (by rfl) (by rfl)

/-- C6: `deposit` with a payment in a foreign asset aborts with the
wrong-asset failure and mutates nothing (the world is returned unchanged);
with the pinned asset it succeeds and credits the caller's entry by exactly
the payment amount, leaving every other principal's entry and the whole
Issuer state unchanged. -/
theorem deposit_wrong_asset_guard (w : World) (caller : Nat)
    (pay : EsdtTokenPayment) :
    (pay.token_identifier ≠ w.bank.piggy_token_identifier →
      execDeposit w caller pay =
        (w, .error ("Token identifier do not match the piggy token"))) ∧
    (pay.token_identifier = w.bank.piggy_token_identifier →
      execDeposit w caller pay = (afterDeposit w caller pay.amount, .ok ()) ∧
      (afterDeposit w caller pay.amount).bank.address_amount caller =
        w.bank.address_amount caller + pay.amount ∧
      (∀ q, q ≠ caller →
        (afterDeposit w caller pay.amount).bank.address_amount q =
          w.bank.address_amount q) ∧
      (afterDeposit w caller pay.amount).minter = w.minter) := by
  constructor
  · intro ht
    simp [execDeposit, PiggyBank.deposit_wrong_token_spec w.bank caller pay ht]
  · intro ht
    refine ⟨?_, ?_, ?_, rfl⟩
    · simp [execDeposit, PiggyBank.deposit_ok_spec w.bank caller pay ht,
        afterDeposit]
    · simp [afterDeposit, setEntry_self]
    · intro q hq
      simp [afterDeposit, setEntry_other _ _ _ _ hq]

/-- C6 witness: a payment in token 2 is rejected, a payment of 5 units of
token 1 credits user 7 from 150000 to 150005. -/
theorem deposit_wrong_asset_guard_witness :
    execDeposit exWorld 7 ⟨2, 0, 5⟩ =
      (exWorld, .error ("Token identifier do not match the piggy token")) ∧
    execDeposit exWorld 7 ⟨1, 0, 5⟩ = (afterDeposit exWorld 7 5, .ok ()) ∧
    (afterDeposit exWorld 7 5).bank.address_amount 7 = 150005 :=
  ⟨(deposit_wrong_asset_guard exWorld 7 ⟨2, 0, 5⟩).1 (by decide),
   ((deposit_wrong_asset_guard exWorld 7 ⟨1, 0, 5⟩).2 (by rfl)).1,
   by simpa using ((deposit_wrong_asset_guard exWorld 7 ⟨1, 0, 5⟩).2 (by rfl)).2.1⟩

/-- C7: `withdraw` by a principal whose deposit entry is zero or absent
aborts with the nothing-to-withdraw failure and performs no mutation — the
world is returned unchanged — and no cross-service call is made: the outcome
is the same for every possible Issuer state. -/
theorem withdraw_zero_balance_no_call (w : World) (self caller : Nat)
    (h0 : w.bank.address_amount caller = 0) :
    execWithdraw w self caller = (w, .error ("Nothing to withdraw")) ∧
    (∀ m : EsdtMinterState,
      execWithdraw { w with minter := m } self caller =
        ({ w with minter := m }, .error ("Nothing to withdraw"))) := by
  constructor
  · simp [execWithdraw, PiggyBank.withdraw_nothing_spec w self caller h0]
  · intro m
    have h0' : ({ w with minter := m } : World).bank.address_amount caller = 0 := h0
    simp [execWithdraw,
      PiggyBank.withdraw_nothing_spec { w with minter := m } self caller h0']

/-- C7 witness: user 7 with an empty deposit entry; the withdraw fails and
the world (with any of two Issuer states) is unchanged. -/
theorem withdraw_zero_balance_no_call_witness :
    execWithdraw exWorld0 10 7 = (exWorld0, .error ("Nothing to withdraw")) ∧
    execWithdraw { exWorld0 with minter := exMinterNoWl } 10 7 =
      ({ exWorld0 with minter := exMinterNoWl }, .error ("Nothing to withdraw")) :=
  ⟨(withdraw_zero_balance_no_call exWorld0 10 7 (by rfl)).1,
   (withdraw_zero_balance_no_call exWorld0 10 7 (by rfl)).2 exMinterNoWl⟩

/-- C10: `deposit` imposes no positivity requirement: a zero-amount payment
of the pinned asset succeeds, every deposit entry keeps its prior value, and
a subsequent `withdraw` by a caller whose entry is still zero aborts with the
nothing-to-withdraw failure. -/
theorem deposit_zero_amount_no_positivity (w : World) (self caller : Nat)
    (pay : EsdtTokenPayment)
    (ht : pay.token_identifier = w.bank.piggy_token_identifier)
    (hz : pay.amount = 0) :
    execDeposit w caller pay = (afterDeposit w caller 0, .ok ()) ∧
    (∀ q, (afterDeposit w caller 0).bank.address_amount q =
      w.bank.address_amount q) ∧
    (w.bank.address_amount caller = 0 →
      execWithdraw (afterDeposit w caller 0) self caller =
        (afterDeposit w caller 0, .error ("Nothing to withdraw"))) := by
  refine ⟨?_, ?_, ?_⟩
  · have h := PiggyBank.deposit_ok_spec w.bank caller pay ht
    rw [hz] at h
    simp [execDeposit, h, afterDeposit]
  · intro q
    by_cases hq : q = caller
    · subst hq
      simp [afterDeposit, setEntry_self]
    · simp [afterDeposit, setEntry_other _ _ _ _ hq]
  · intro hc
    have h0 : (afterDeposit w caller 0).bank.address_amount caller = 0 := by
      simp [afterDeposit, setEntry_self, hc]
    simp [execWithdraw,
      PiggyBank.withdraw_nothing_spec (afterDeposit w caller 0) self caller h0]

/-- C10 witness: a zero deposit by user 7 into the empty-ledger world
succeeds and the follow-up withdraw still fails. -/
theorem deposit_zero_amount_no_positivity_witness :
    execDeposit exWorld0 7 ⟨1, 0, 0⟩ = (afterDeposit exWorld0 7 0, .ok ()) ∧
    execWithdraw (afterDeposit exWorld0 7 0) 10 7 =
      (afterDeposit exWorld0 7 0, .error ("Nothing to withdraw")) :=
  ⟨(deposit_zero_amount_no_positivity exWorld0 10 7 ⟨1, 0, 0⟩ (by rfl) (by rfl)).1,
   (deposit_zero_amount_no_positivity exWorld0 10 7 ⟨1, 0, 0⟩ (by rfl) (by rfl)).2.2
     (by rfl)⟩

/-- C3: a `deposit` of `A > 0` by a fresh principal `P` followed immediately
by a `withdraw` pays out the whole balance with floor interest: the bank's
outbound transfer to `P` carries exactly `A` when the rate is 0 and exactly
`2 * A` when the rate is 100, and `DepositLedger[P]` is cleared to zero. -/
theorem deposit_then_withdraw_roundtrip (w : World) (self P A : Nat)
    (hA : 0 < A) (hprior : w.bank.address_amount P = 0)
    (hwl : w.minter.interest_whitelist self = true)
    (htok : w.bank.piggy_token_identifier = w.minter.esdt_identifier) :
    execDeposit w P ⟨w.bank.piggy_token_identifier, 0, A⟩ =
      (afterDeposit w P A, .ok ()) ∧
    (execWithdraw (afterDeposit w P A) self P).2 =
      .ok [⟨w.bank.esdt_minter_address, self, w.bank.piggy_token_identifier, 0,
            A + A * w.minter.interest_percentage / 100⟩,
           ⟨self, P, w.bank.piggy_token_identifier, 0,
            A + A * w.minter.interest_percentage / 100⟩] ∧
    (w.minter.interest_percentage = 0 →
      (execWithdraw (afterDeposit w P A) self P).2 =
        .ok [⟨w.bank.esdt_minter_address, self, w.bank.piggy_token_identifier, 0, A⟩,
             ⟨self, P, w.bank.piggy_token_identifier, 0, A⟩]) ∧
    (w.minter.interest_percentage = 100 →
      (execWithdraw (afterDeposit w P A) self P).2 =
        .ok [⟨w.bank.esdt_minter_address, self, w.bank.piggy_token_identifier, 0, 2 * A⟩,
             ⟨self, P, w.bank.piggy_token_identifier, 0, 2 * A⟩]) ∧
    (execWithdraw (afterDeposit w P A) self P).1.bank.address_amount P = 0 := by
  have hdep : execDeposit w P ⟨w.bank.piggy_token_identifier, 0, A⟩ =
      (afterDeposit w P A, .ok ()) := by
    simp [execDeposit,
      PiggyBank.deposit_ok_spec w.bank P ⟨w.bank.piggy_token_identifier, 0, A⟩ rfl,
      afterDeposit]
  have hamt : (afterDeposit w P A).bank.address_amount P = A := by
    simp [afterDeposit, setEntry_self, hprior]
  have h0 : (afterDeposit w P A).bank.address_amount P ≠ 0 := by omega
  have hwd := PiggyBank.withdraw_ok_spec (afterDeposit w P A) self P h0 hwl htok
  rw [hamt] at hwd
  have hmain : (execWithdraw (afterDeposit w P A) self P).2 =
      .ok [⟨w.bank.esdt_minter_address, self, w.bank.piggy_token_identifier, 0,
            A + A * w.minter.interest_percentage / 100⟩,
           ⟨self, P, w.bank.piggy_token_identifier, 0,
            A + A * w.minter.interest_percentage / 100⟩] := by
    simp only [execWithdraw]
    rw [hwd]
    simp [afterDeposit]
  refine ⟨hdep, hmain, ?_, ?_, ?_⟩
  · intro hr
    rw [hmain, hr]
    norm_num
  · intro hr
    rw [hmain, hr]
    have : A * 100 / 100 = A := Nat.mul_div_cancel A (by norm_num)
    rw [this]
    norm_num [two_mul]
  · simp only [execWithdraw]
    rw [hwd]
    simp [afterDeposit, setEntry_self]

/-- C3 witness: the integration-test scenario — deposit 150000 at rate 100,
withdraw pays 300000 to user 7 and clears the entry. -/
theorem deposit_then_withdraw_roundtrip_witness :
    execDeposit exWorld0 7 ⟨1, 0, 150000⟩ = (afterDeposit exWorld0 7 150000, .ok ()) ∧
    (execWithdraw (afterDeposit exWorld0 7 150000) 10 7).2 =
      .ok [⟨9, 10, 1, 0, 300000⟩, ⟨10, 7, 1, 0, 300000⟩] ∧
    (execWithdraw (afterDeposit exWorld0 7 150000) 10 7).1.bank.address_amount 7 = 0 := by
  have h := deposit_then_withdraw_roundtrip exWorld0 10 7 150000
    (by decide) (by rfl) (by rfl) (by rfl)
  exact ⟨h.1, by simpa using h.2.2.2.1 (by rfl), h.2.2.2.2⟩

/-- C9: amount arithmetic is exact on arbitrary-precision non-negative
integers and can never wrap: for every configured rate `r` — including rates
above 100 — a whitelisted interest claim on amount `a` computes exactly
`floor(a * r / 100)` of interest, and the airdrop and deposit credits compute
exactly the old balance plus the credited amount. -/
theorem amount_arithmetic_exact (st : EsdtMinterState) (bst : PiggyBankState)
    (self caller owner address amount : Nat) (pay dpay : EsdtTokenPayment) :
    (st.interest_whitelist caller = true →
      pay.token_identifier = st.esdt_identifier →
      EsdtMinter.claim_interests self st caller pay =
        .ok ({ st with minted := st.minted +
                pay.amount * st.interest_percentage / 100 },
             [⟨self, caller, pay.token_identifier, 0,
               pay.amount + pay.amount * st.interest_percentage / 100⟩],
             ⟨pay.token_identifier, 0,
              pay.amount + pay.amount * st.interest_percentage / 100⟩)) ∧
    (caller = owner →
      EsdtMinter.add_airdrop_amount st caller owner address amount =
        .ok { st with
              airdrop_amount := setEntry st.airdrop_amount address
                                  (st.airdrop_amount address + amount) }) ∧
    (dpay.token_identifier = bst.piggy_token_identifier →
      PiggyBank.deposit bst caller dpay =
        .ok { bst with
              address_amount := setEntry bst.address_amount caller
                                  (bst.address_amount caller + dpay.amount) }) := by
  refine ⟨?_, ?_, ?_⟩
  · intro hw ht
    exact EsdtMinter.claim_interests_ok_spec self st caller pay hw ht
  · intro ho
    simp [EsdtMinter.add_airdrop_amount, ho]
  · intro ht
    exact PiggyBank.deposit_ok_spec bst caller dpay ht

/-- C9 witness: at rate 250 a claim on 100 units yields exactly
`100 + 100 * 250 / 100 = 350`, and an airdrop credit of 150000 lands
exactly. -/
theorem amount_arithmetic_exact_witness :
    EsdtMinter.claim_interests 9 exMinter250 10 ⟨1, 0, 100⟩ =
      .ok ({ exMinter250 with minted := 250 }, [⟨9, 10, 1, 0, 350⟩], ⟨1, 0, 350⟩) ∧
    EsdtMinter.add_airdrop_amount exMinter 4 4 7 150000 =
      .ok { exMinter with
            airdrop_amount := setEntry exMinter.airdrop_amount 7
                                (exMinter.airdrop_amount 7 + 150000) } :=
  ⟨(amount_arithmetic_exact exMinter250 exBank 9 10 4 7 150000
      ⟨1, 0, 100⟩ ⟨1, 0, 5⟩).1 (by rfl) (by rfl),
   (amount_arithmetic_exact exMinter exBank 9 4 4 7 150000
      ⟨1, 0, 100⟩ ⟨1, 0, 5⟩).2.1 (by rfl)⟩

/-- C8: whitelist membership is evaluated afresh on every interest claim:
a successful `claim_interests` never mutates the whitelist, and after
`add_interest_address P` followed by `remove_interest_address P` (both by the
owner) a claim by `P` fails `Item not whitelisted` — exactly the failure `P`
got before the addition whenever `P` was not whitelisted then. -/
theorem whitelist_add_remove_restores_not_whitelisted
    (st : EsdtMinterState) (owner P minterAddr : Nat) (pay : EsdtTokenPayment) :
    (∀ (sa : Nat) (s : EsdtMinterState) (c : Nat) (pa : EsdtTokenPayment)
       (s' : EsdtMinterState) (ts : List Transfer) (ret : EsdtTokenPayment),
      EsdtMinter.claim_interests sa s c pa = .ok (s', ts, ret) →
        s'.interest_whitelist = s.interest_whitelist) ∧
    (∀ st1 st2 : EsdtMinterState,
      EsdtMinter.add_interest_address st owner owner P = .ok st1 →
      EsdtMinter.remove_interest_address st1 owner owner P = .ok st2 →
      EsdtMinter.claim_interests minterAddr st2 P pay =
        .error ("Item not whitelisted") ∧
      (st.interest_whitelist P = false →
        EsdtMinter.claim_interests minterAddr st P pay =
          .error ("Item not whitelisted"))) := by
  constructor
  · intro sa s c pa s' ts ret h
    by_cases hw : s.interest_whitelist c = true
    · by_cases ht : pa.token_identifier = s.esdt_identifier
      · rw [EsdtMinter.claim_interests_ok_spec sa s c pa hw ht] at h
        simp only [Except.ok.injEq, Prod.mk.injEq] at h
        obtain ⟨h1, -, -⟩ := h
        subst h1
        rfl
      · rw [EsdtMinter.claim_interests_wrong_token_spec sa s c pa hw ht] at h
        simp at h
    · rw [EsdtMinter.claim_interests_not_whitelisted_spec sa s c pa
        (by simpa using hw)] at h
      simp at h
  · intro st1 st2 hadd hrem
    simp [EsdtMinter.add_interest_address] at hadd
    simp [EsdtMinter.remove_interest_address] at hrem
    subst hadd
    subst hrem
    refine ⟨?_, ?_⟩
    · exact EsdtMinter.claim_interests_not_whitelisted_spec minterAddr _ P pay
        (by simp [setFlag_self])
    · intro hfresh
      exact EsdtMinter.claim_interests_not_whitelisted_spec minterAddr st P pay
        hfresh

/-- C8 witness: user 7, never whitelisted, is added and removed by owner 4;
the subsequent claim fails with the same whitelist error as before. -/
theorem whitelist_add_remove_restores_not_whitelisted_witness :
    EsdtMinter.claim_interests 9
      { exMinterNoWl with
        interest_whitelist :=
          setFlag (setFlag exMinterNoWl.interest_whitelist 7 true) 7 false }
      7 ⟨1, 0, 4⟩ = .error ("Item not whitelisted") ∧
    EsdtMinter.claim_interests 9 exMinterNoWl 7 ⟨1, 0, 4⟩ =
      .error ("Item not whitelisted") := by
  have h := (whitelist_add_remove_restores_not_whitelisted exMinterNoWl 4 7 9
      ⟨1, 0, 4⟩).2
    { exMinterNoWl with
      interest_whitelist := setFlag exMinterNoWl.interest_whitelist 7 true }
    { exMinterNoWl with
      interest_whitelist :=
        setFlag (setFlag exMinterNoWl.interest_whitelist 7 true) 7 false }
    (by rfl) (by rfl)
  exact ⟨h.1, h.2 (by rfl)⟩

/-- C4 counterexample: at a concrete whitelisted call, `claim_interests`
itself performs an asset transfer (`direct_esdt` to its caller, lines 97-102
of the esdt-minter): its transfer log is the non-empty `[⟨9, 10, 1, 0, 8⟩]`,
refuting the claim that it performs no asset transfer and only returns the
payment as a value. -/
theorem claim_interests_performs_transfer_counterexample :
    interestTransfers (EsdtMinter.claim_interests 9 exMinter 10 ⟨1, 0, 4⟩) =
      some [⟨9, 10, 1, 0, 8⟩] ∧
    some ([⟨9, 10, 1, 0, 8⟩] : List Transfer) ≠ some ([] : List Transfer) :=
  ⟨by rfl, by decide⟩

/-- C4 amended: a successful `claim_interests` both returns the
principal-plus-interest payment as its result value and performs exactly one
asset transfer of that same payment, whose recipient is its immediate caller
(not the withdrawing principal); the transfer to the withdrawing principal is
the one appended by the Vault's `withdraw`, which forwards the returned
payment to its own caller. -/
theorem claim_interests_transfer_to_caller_only (self : Nat)
    (st : EsdtMinterState) (caller : Nat) (pay : EsdtTokenPayment)
    (st' : EsdtMinterState) (ts : List Transfer) (ret : EsdtTokenPayment)
    (h : EsdtMinter.claim_interests self st caller pay = .ok (st', ts, ret)) :
    ts = [⟨self, caller, ret.token_identifier, 0, ret.amount⟩] ∧
    (∀ (w : World) (bankAddr c : Nat) (w' : World) (wts : List Transfer),
      PiggyBank.withdraw w bankAddr c = .ok (w', wts) →
      ∃ (m : EsdtMinterState) (cts : List Transfer) (p : EsdtTokenPayment),
        EsdtMinter.claim_interests w.bank.esdt_minter_address w.minter bankAddr
          ⟨w.bank.piggy_token_identifier, 0, w.bank.address_amount c⟩ =
          .ok (m, cts, p) ∧
        wts = cts ++ [⟨bankAddr, c, p.token_identifier, p.token_nonce, p.amount⟩]) := by
  constructor
  · by_cases hw : st.interest_whitelist caller = true
    · by_cases ht : pay.token_identifier = st.esdt_identifier
      · rw [EsdtMinter.claim_interests_ok_spec self st caller pay hw ht] at h
        simp only [Except.ok.injEq, Prod.mk.injEq] at h
        obtain ⟨-, hts, hret⟩ := h
        subst hts
        subst hret
        rfl
      · rw [EsdtMinter.claim_interests_wrong_token_spec self st caller pay hw ht] at h
        simp at h
    · rw [EsdtMinter.claim_interests_not_whitelisted_spec self st caller pay
        (by simpa using hw)] at h
      simp at h
  · intro w bankAddr c w' wts hwd
    simp only [PiggyBank.withdraw, PiggyBank.call_claim_interests_sync] at hwd
    by_cases h0 : w.bank.address_amount c = 0
    · simp [h0] at hwd
    · simp only [h0, if_neg, ite_false] at hwd
      cases hcall : EsdtMinter.claim_interests w.bank.esdt_minter_address
          w.minter bankAddr
          ⟨w.bank.piggy_token_identifier, 0, w.bank.address_amount c⟩ with
      | error e =>
        rw [hcall] at hwd
        simp at hwd
      | ok tr =>
        obtain ⟨m, cts, p⟩ := tr
        rw [hcall] at hwd
        simp only [Except.ok.injEq, Prod.mk.injEq] at hwd
        exact ⟨m, cts, p, rfl, hwd.2.symm⟩

/-- C4 amended witness: the concrete successful claim of 4 units at 100%
emits exactly the one transfer of the returned 8-unit payment to caller 10. -/
theorem claim_interests_transfer_to_caller_only_witness :
    EsdtMinter.claim_interests 9 exMinter 10 ⟨1, 0, 4⟩ =
      .ok ({ exMinter with minted := 4 }, [⟨9, 10, 1, 0, 8⟩], ⟨1, 0, 8⟩) ∧
    ([⟨9, 10, 1, 0, 8⟩] : List Transfer) = [⟨9, 10, 1, 0, 8⟩] :=
  ⟨by rfl,
   (claim_interests_transfer_to_caller_only 9 exMinter 10 ⟨1, 0, 4⟩
      { exMinter with minted := 4 } [⟨9, 10, 1, 0, 8⟩] ⟨1, 0, 8⟩ (by rfl)).1⟩

/-- C5 counterexample: the elrond-wasm era `claim_airdrop`
(`contracts/esdt-minter/src/lib.rs`, lines 34-40) has no zero check: with
`AllocationLedger[7] = 0` the invocation does not fail `Nothing to claim` —
it completes, emitting a zero-amount transfer and clearing the entry. -/
theorem claim_airdrop_v1_zero_allocation_counterexample :
    exMinterV1.airdrop_amount 7 = 0 ∧
    EsdtMinterV1.claim_airdrop 9 exMinterV1 7 =
      ({ exMinterV1 with
         airdrop_amount := setEntry exMinterV1.airdrop_amount 7 0 },
       [⟨9, 7, 1, 0, 0⟩]) :=
  ⟨rfl, rfl⟩

/-- C5 amended: in the multiversx-sc era esdt-minter, `claim_airdrop` fails
`Nothing to claim` on a zero/absent allocation, and otherwise transfers
exactly the allocated amount to the caller, clears the entry (others
untouched), and a second immediate claim fails `Nothing to claim`; the
earlier elrond-wasm era variant instead has no failure path at all — it
always transfers the current allocation, even when that allocation is zero. -/
theorem claim_airdrop_single_success (self : Nat) (st : EsdtMinterState)
    (caller : Nat) :
    (st.airdrop_amount caller = 0 →
      EsdtMinter.claim_airdrop self st caller = .error ("Nothing to claim")) ∧
    (st.airdrop_amount caller ≠ 0 →
      EsdtMinter.claim_airdrop self st caller =
        .ok ({ st with
               airdrop_amount := setEntry st.airdrop_amount caller 0,
               minted := st.minted + st.airdrop_amount caller },
             [⟨self, caller, st.esdt_identifier, 0, st.airdrop_amount caller⟩]) ∧
      (∀ q, q ≠ caller →
        setEntry st.airdrop_amount caller 0 q = st.airdrop_amount q) ∧
      EsdtMinter.claim_airdrop self
        { st with
          airdrop_amount := setEntry st.airdrop_amount caller 0,
          minted := st.minted + st.airdrop_amount caller } caller =
        .error ("Nothing to claim")) ∧
    (∀ v1 : EsdtMinterV1State,
      (EsdtMinterV1.claim_airdrop self v1 caller).2 =
        [⟨self, caller, v1.esdt_identifier, 0, v1.airdrop_amount caller⟩]) := by
  refine ⟨?_, ?_, ?_⟩
  · intro hz
    simp [EsdtMinter.claim_airdrop, hz]
  · intro hnz
    refine ⟨by simp [EsdtMinter.claim_airdrop, hnz], ?_, ?_⟩
    · intro q hq
      exact setEntry_other _ _ _ _ hq
    · simp [EsdtMinter.claim_airdrop, setEntry_self]
  · intro v1
    rfl

/-- C5 amended witness: user 7 with allocation 150000 claims once (receiving
150000), and the immediate second claim fails. -/
theorem claim_airdrop_single_success_witness :
    EsdtMinter.claim_airdrop 9 exMinterAir 7 =
      .ok ({ exMinterAir with
             airdrop_amount := setEntry exMinterAir.airdrop_amount 7 0,
             minted := exMinterAir.minted + exMinterAir.airdrop_amount 7 },
           [⟨9, 7, 1, 0, 150000⟩]) ∧
    EsdtMinter.claim_airdrop 9
      { exMinterAir with
        airdrop_amount := setEntry exMinterAir.airdrop_amount 7 0,
        minted := exMinterAir.minted + exMinterAir.airdrop_amount 7 } 7 =
      .error ("Nothing to claim") := by
  have h := (claim_airdrop_single_success 9 exMinterAir 7).2.1 (by decide)
  exact ⟨by simpa using h.1, h.2.2⟩

end PiggyProtocol
